import Mathlib

/-!
Verification of the client-side audio/recording state machine of the
meit_ai chat widget.

The embedding below translates, state field by state field and branch by
branch, the three core modules of the repository:

* `public/js/audio/ttsManager.js` — `TTSManager` (synthesis requests) and
  `AudioPlaybackManager` (per-message playback transport);
* the recording manager (`recordingManager.js`) — microphone capture,
  native speech recognition and the backend transcription call;
* `public/js/audio/audioUnlockUtils.js` — `AudioUnlockUtils.unlockAudio`.

DOM handles are replaced by message identifiers (`MsgId := Nat`), JS
numbers by `ℚ` (every numeric constant involved — 1, 1.5, 2, positions —
is exactly representable), string-valued `dataset` slots by the values
they encode, and thrown JS exceptions by `Except`.  Asynchronous
callbacks (recognizer events, fetch results) are modelled as explicit
events applied to the state; network outcomes are drawn from an
explicit environment argument.
-/

namespace MeitAi

/-- Message identifier: stands for the `msgDiv` / `dataset.messageId` of a
chat message. -/
abbrev MsgId := Nat

/-- The four playback states kept in `AudioPlaybackManager.messageStateMap`
(strings `IDLE`/`PLAYING`/`PAUSED`/`FINISHED` in the source). -/
inductive PlayState where
  | IDLE
  | PLAYING
  | PAUSED
  | FINISHED
deriving DecidableEq, Repr

/-- Pointwise update of a map `MsgId → α`, standing for
`messageStateMap.set(id, v)` or a `dataset` field assignment. -/
def setAt {α : Type} (f : MsgId → α) (k : MsgId) (v : α) : MsgId → α :=
  fun m => if m = k then v else f m

/-- State of `AudioPlaybackManager` (ttsManager.js), restricted to the
fields the transport logic reads and writes:

* `currentlyPlaying` — `currentlyPlayingMsgDiv` (`none` = JS `null`);
* `stateOf` — `messageStateMap` (unset keys read as `IDLE`);
* `currentPosition` — the per-message `dataset.currentPosition` slot;
* `globalPlaybackRate` — `globalPlaybackRate`;
* `storedPlaybackRate` — the `audioPlaybackRate` key of `localStorage`;
* `speedLabel` — the rate rendered on each message's `.speed-button`
  (the source writes `` `${rate}x` `` into `textContent`; we keep the
  rate itself);
* `unlockedAudio` — the dedicated `Audio` handle, abstracted to the
  playback rate applied to it (`none` = handle is `null`);
* `audioTime` — `currentTime` of whatever handle is audible, read by
  `getCurrentPlaybackTime`. -/
structure PlaybackState where
  currentlyPlaying : Option MsgId
  stateOf : MsgId → PlayState
  currentPosition : MsgId → ℚ
  globalPlaybackRate : ℚ
  storedPlaybackRate : Option ℚ
  speedLabel : MsgId → ℚ
  unlockedAudio : Option ℚ
  audioTime : ℚ

/-- `AudioPlaybackManager.getCurrentPlaybackTime`: current offset of the
audible handle. -/
def getCurrentPlaybackTime (s : PlaybackState) : ℚ :=
  s.audioTime

/-- `AudioPlaybackManager.releaseAudioResources`: null the audio handles;
if a message is currently playing, mark it `FINISHED` and clear
`currentlyPlayingMsgDiv`. -/
def releaseAudioResources (s : PlaybackState) : PlaybackState :=
  let s1 := { s with unlockedAudio := none }
  match s1.currentlyPlaying with
  | some a =>
      { s1 with
        stateOf := setAt s1.stateOf a PlayState.FINISHED
        currentlyPlaying := none }
  | none => s1

/-- `AudioPlaybackManager.stopCurrentlyPlayingAudio(convertToReplay)`:
no-op when nothing is playing; otherwise remember the playing message
and its offset, release all audio resources, then mark the message
`FINISHED` when `convertToReplay` is true and `PAUSED` (recording the
offset in `dataset.currentPosition`) when it is false. -/
def stopCurrentlyPlayingAudio (convertToReplay : Bool) (s : PlaybackState) :
    PlaybackState :=
  match s.currentlyPlaying with
  | none => s
  | some a =>
      let currentTime := getCurrentPlaybackTime s
      let s1 := releaseAudioResources s
      if convertToReplay then
        { s1 with stateOf := setAt s1.stateOf a PlayState.FINISHED }
      else
        { s1 with
          stateOf := setAt s1.stateOf a PlayState.PAUSED
          currentPosition := setAt s1.currentPosition a currentTime }

/-- First step of `AudioPlaybackManager.playMessageAudio`: if a different
message is currently playing, stop it first via
`stopCurrentlyPlayingAudio(false)`. -/
def playStepStopPrevious (msg : MsgId) (s : PlaybackState) : PlaybackState :=
  match s.currentlyPlaying with
  | some a => if a ≠ msg then stopCurrentlyPlayingAudio false s else s
  | none => s

/-- Second step of `playMessageAudio`:
`this.currentlyPlayingMsgDiv = msgDiv`. -/
def playStepSetCurrent (msg : MsgId) (s : PlaybackState) : PlaybackState :=
  { s with currentlyPlaying := some msg }

/-- Third step of `playMessageAudio`:
`this.messageStateMap.set(messageId, 'PLAYING')`, then a fresh audio
handle is created with `playbackRate = this.globalPlaybackRate`. -/
def playStepMarkPlaying (msg : MsgId) (s : PlaybackState) : PlaybackState :=
  { s with
    stateOf := setAt s.stateOf msg PlayState.PLAYING
    unlockedAudio := some s.globalPlaybackRate }

/-- `AudioPlaybackManager.playMessageAudio(msgDiv, audioUrl)`: the three
state-changing steps in source order. -/
def playMessageAudio (msg : MsgId) (s : PlaybackState) : PlaybackState :=
  playStepMarkPlaying msg (playStepSetCurrent msg (playStepStopPrevious msg s))

/-- The sequence of states `playMessageAudio` passes through, one entry
after each state-changing statement. -/
def playMessageAudioTrace (msg : MsgId) (s : PlaybackState) :
    List PlaybackState :=
  let s1 := playStepStopPrevious msg s
  let s2 := playStepSetCurrent msg s1
  let s3 := playStepMarkPlaying msg s2
  [s, s1, s2, s3]

/-- At most one message is in the `PLAYING` state. -/
def AtMostOnePlaying (s : PlaybackState) : Prop :=
  ∀ m n : MsgId, s.stateOf m = PlayState.PLAYING →
    s.stateOf n = PlayState.PLAYING → m = n

/-- `AudioPlaybackManager.replayAudio(msgDiv, audioUrl)`: snapshot the
global rate, reset `dataset.currentPosition` to `'0'`, release the
dedicated handle, restore the snapshotted rate, then play from the
beginning via `playMessageAudio`. -/
def replayAudio (msg : MsgId) (s : PlaybackState) : PlaybackState :=
  let currentRate := s.globalPlaybackRate
  let s1 := { s with currentPosition := setAt s.currentPosition msg 0 }
  let s2 := { s1 with unlockedAudio := none }
  let s3 := { s2 with globalPlaybackRate := currentRate }
  playMessageAudio msg s3

/-- The successor function of `AudioPlaybackManager.cyclePlaybackSpeed`:
`rate === 1 ? 1.5 : rate === 1.5 ? 2 : 1`. -/
def cycleRateValue (r : ℚ) : ℚ :=
  if r = 1 then 3/2 else if r = 3/2 then 2 else 1

/-- `AudioPlaybackManager.cyclePlaybackSpeed(msgDiv)`: advance the global
rate, apply it to the live audio handle if any, persist it to
`localStorage` under `audioPlaybackRate`, and rewrite every
`.speed-button` label in the document to the new rate. -/
def cyclePlaybackSpeed (s : PlaybackState) : PlaybackState :=
  let r := cycleRateValue s.globalPlaybackRate
  { s with
    globalPlaybackRate := r
    unlockedAudio := s.unlockedAudio.map (fun _ => r)
    storedPlaybackRate := some r
    speedLabel := fun _ => r }

/-! ### TTSManager (ttsManager.js): synthesis request and speak -/

/-- A synthesis (`/api/text-to-speech`) response as `requestTTS` inspects
it: HTTP success flag, status code, `content-type` header, and the byte
size of the body blob. -/
structure TTSResponse where
  ok : Bool
  status : Nat
  contentType : Option String
  bodySize : Nat
deriving DecidableEq, Repr

/-- The errors `TTSManager.requestTTS` can throw. -/
inductive TTSError where
  /-- `throw new Error('TTS server error: ...')` on a non-OK status. -/
  | serverError (status : Nat)
  /-- `throw new Error('Invalid audio response')` on a non-audio
  content-type. -/
  | invalidAudioResponse
  /-- `throw new Error('Received empty audio blob')` on a 0-byte body. -/
  | emptyAudioBlob
deriving DecidableEq, Repr

/-- The marker the content-type check looks for:
`contentType.includes('audio/')`. -/
def audioMarker : String := "audio/"

/-- `needle` occurs as a contiguous run inside `haystack` (the semantics
of JS `String.prototype.includes`). -/
def listContains (needle : List Char) : List Char → Bool
  | [] => needle.isEmpty
  | c :: rest => List.isPrefixOf needle (c :: rest) || listContains needle rest

/-- `contentType && contentType.includes('audio/')`. -/
def contentTypeIsAudio : Option String → Bool
  | none => false
  | some ct => listContains audioMarker.toList ct.toList

instance (ct : Option String) : Decidable (contentTypeIsAudio ct = true) := by
  unfold contentTypeIsAudio
  cases ct <;> infer_instance

/-- The opaque blob URL returned on success
(`URL.createObjectURL(audioBlob)`). -/
def objectUrl : String := "blob:object-url"

/-- `TTSManager.requestTTS(text)`: reject on non-OK status, then on a
non-audio content-type, then on an empty body; otherwise resolve with a
blob URL. -/
def requestTTS (r : TTSResponse) : Except TTSError String :=
  if ¬ r.ok then Except.error (TTSError.serverError r.status)
  else if ¬ contentTypeIsAudio r.contentType then
    Except.error TTSError.invalidAudioResponse
  else if r.bodySize = 0 then Except.error TTSError.emptyAudioBlob
  else Except.ok objectUrl

/-- The `.vocal-button` of a message: its `loading` CSS class and the
icon asset currently rendered inside it. -/
structure VocalButton where
  loading : Bool
  icon : String
deriving DecidableEq, Repr

/-- `assets/loading.png`, the icon installed while synthesis is pending. -/
def loadingIcon : String := "assets/loading.png"

/-- `assets/vocal.png`, the default speak icon. -/
def vocalIcon : String := "assets/vocal.png"

/-- `TTSManager.speakMessage(msgDiv, text, audioPlaybackManager)`,
restricted to the synthesis result and the vocal button: the button is
put into the loading state, then `requestTTS` runs; on any error the
catch block removes the loading class and restores the default icon and
the rejection propagates. -/
def speakMessage (r : TTSResponse) (_btn : VocalButton) :
    Except TTSError String × VocalButton :=
  let btnLoading : VocalButton := { loading := true, icon := loadingIcon }
  match requestTTS r with
  | Except.ok url => (Except.ok url, btnLoading)
  | Except.error e =>
      (Except.error e, { loading := false, icon := vocalIcon })

/-! ### AudioUnlockUtils.unlockAudio (audioUnlockUtils.js) -/

/-- State of `AudioUnlockUtils` read and written by `unlockAudio`. -/
structure UnlockState where
  audioUnlocked : Bool
  audioUnlockAttempts : Nat
deriving DecidableEq, Repr

/-- Environment for one `unlockAudio` run: `bodyFailure` is the JS
exception, if any, that the body of the unlock promise executor would
throw past the per-technique `try`/`catch` blocks (reaching the outer
`catch (error)` handler). -/
structure UnlockEnv where
  bodyFailure : Option String
deriving DecidableEq, Repr

/-- Visible outcome of one `unlockAudio` call: the promise settlement
(`Except.error` would mean a rejection or an escaped exception — the
theorems show it never occurs), the updated state, and whether the
unlock techniques were (re)run. -/
structure UnlockResult where
  promise : Except String Bool
  state : UnlockState
  techniquesRan : Bool
deriving Repr

/-- `AudioUnlockUtils.unlockAudio(forceAttempt)`:

* already unlocked and not forcing → resolve `true` at once;
* more than 5 attempts and not forcing → resolve `false` at once;
* otherwise count the attempt and run the techniques inside
  `try { ... } catch (error) { resolve(false) }`; when nothing escapes,
  the cleanup timeout sets `audioUnlocked = true` and resolves `true`. -/
def unlockAudio (forceAttempt : Bool) (env : UnlockEnv) (s : UnlockState) :
    UnlockResult :=
  if s.audioUnlocked && !forceAttempt then
    { promise := Except.ok true, state := s, techniquesRan := false }
  else if s.audioUnlockAttempts > 5 && !forceAttempt then
    { promise := Except.ok false, state := s, techniquesRan := false }
  else
    let s1 := { s with audioUnlockAttempts := s.audioUnlockAttempts + 1 }
    match env.bodyFailure with
    | some _ =>
        { promise := Except.ok false, state := s1, techniquesRan := true }
    | none =>
        { promise := Except.ok true
          state := { s1 with audioUnlocked := true }
          techniquesRan := true }

/-! ### RecordingManager (recordingManager.js) -/

/-- A microphone stream handle: `none` is the JS `null`; `some active`
carries `MediaStream.active`. -/
abbrev MicStream := Option Bool

/-- State of `RecordingManager`, restricted to the fields the recording
lifecycle reads and writes.  `micAcquisitions` counts the
`getUserMedia` calls made so far (it is how the embedding observes
"no second microphone acquisition"); `errorSurfaced` records whether an
`alert(...)` was shown to the user. -/
structure RecState where
  isRecording : Bool
  micStream : MicStream
  micAcquisitions : Nat
  speechRecognitionSupported : Bool
  isAndroid : Bool
  recognitionRunning : Bool
  userInputValue : String
  userInputReadOnly : Bool
  currentTranscript : String
  autoTranscribe : Bool
  errorSurfaced : Bool
  chatDispatches : Nat
deriving DecidableEq, Repr

/-- Number of active recording sessions in a state (the source keeps at
most one, flagged by `isRecording`). -/
def activeSessions (s : RecState) : Nat :=
  if s.isRecording then 1 else 0

/-- `RecordingManager.startRecording()`: ignore the call when already
recording; otherwise show the recording UI, start the timer, set
`isRecording = true` and make the text input read-only. -/
def startRecording (s : RecState) : RecState :=
  if s.isRecording then s
  else { s with isRecording := true, userInputReadOnly := true }

/-- The `voiceButton` click handler: return at once when `isRecording`
(`'Already recording, ignoring duplicate start'`); otherwise drop an
inactive stale stream, reuse an active one or acquire a fresh stream
via `getUserMedia` (aborting with an alert when speech recognition is
unsupported on a non-Android platform), then call `startRecording` and
start the recognizer. -/
def voiceButtonClick (s : RecState) : RecState :=
  if s.isRecording then s
  else
    let s1 :=
      match s.micStream with
      | some false => { s with micStream := none }
      | _ => s
    if s1.micStream = some true then
      let s2 := startRecording s1
      { s2 with recognitionRunning := ¬ s2.isAndroid }
    else if ¬ s1.speechRecognitionSupported ∧ ¬ s1.isAndroid then
      { s1 with errorSurfaced := true }
    else
      let s2 :=
        { s1 with micStream := some true
                  micAcquisitions := s1.micAcquisitions + 1 }
      let s3 := startRecording s2
      { s3 with recognitionRunning := ¬ s3.isAndroid }

/-- Transcript routing at the end of `stopRecording(true)` on the
non-Android path: with auto-transcribe the accumulated internal
transcript is cleared from the field and dispatched to the chat flow;
without it the transcript is placed in the text field. -/
def processTranscript (s : RecState) : RecState :=
  let transcript :=
    if s.autoTranscribe ∧ s.currentTranscript ≠ "" then s.currentTranscript
    else s.userInputValue.trim
  let s1 :=
    if s.autoTranscribe ∧ s.currentTranscript ≠ "" then
      { s with currentTranscript := "" }
    else s
  if transcript = "" then s1
  else if s1.autoTranscribe then
    { s1 with userInputValue := ""
              chatDispatches := s1.chatDispatches + 1 }
  else
    { s1 with userInputValue := transcript }

/-- `RecordingManager.stopRecording(shouldKeepTranscript)`: ignore the
call when already stopped with no stream; otherwise clear
`isRecording`, abort the recognizer, stop every microphone track and
null the stream, clear the text input unless the transcript is kept,
re-enable the input, and (non-Android, keeping) process the
transcript. -/
def stopRecording (keep : Bool) (s : RecState) : RecState :=
  if ¬ s.isRecording ∧ s.micStream = none then s
  else
    let s1 := { s with isRecording := false }
    let s2 := { s1 with recognitionRunning := false }
    let s3 := { s2 with micStream := none }
    let s4 := if ¬ keep then { s3 with userInputValue := "" } else s3
    let s5 := { s4 with userInputReadOnly := false }
    if keep ∧ ¬ s5.isAndroid then processTranscript s5 else s5

/-- The `cancelButton` click handler (also the Escape-key branch): abort
the recognizer, clear the text input, then `stopRecording(false)`. -/
def cancelButtonClick (s : RecState) : RecState :=
  let s1 := { s with recognitionRunning := false }
  let s2 := { s1 with userInputValue := "" }
  stopRecording false s2

/-- A recognizer `result` event carrying the concatenated transcript:
ignored when the session already ended; otherwise echoed into the text
field, or accumulated internally when auto-transcribe is on. -/
def recognitionOnResult (transcript : String) (s : RecState) : RecState :=
  if ¬ s.isRecording then s
  else if ¬ s.autoTranscribe then { s with userInputValue := transcript }
  else { s with currentTranscript := transcript }

/-- The error codes a recognizer `error` event can carry. -/
inductive RecErrorKind where
  | aborted
  | notAllowed
  | network
  | other
deriving DecidableEq, Repr

/-- `recognition.onerror`: an `aborted` error while recording is ignored;
every other error stops the session without keeping the transcript. -/
def recognitionOnError (err : RecErrorKind) (s : RecState) : RecState :=
  if err = RecErrorKind.aborted ∧ s.isRecording then s
  else stopRecording false s

/-- `recognition.onend`: the engine has ended on its own; while the
session is still active the handler restarts it after a short delay
(re-checking `isRecording` first). -/
def recognitionOnEnd (s : RecState) : RecState :=
  let s1 := { s with recognitionRunning := false }
  if s1.isRecording then { s1 with recognitionRunning := true } else s1

/-! ### Transcription client (`RecordingManager.sendAudioToBackend`) -/

/-- Outcome of one `POST /api/speech-to-text` attempt: a transcript, or a
failure (a transport error or a non-success status — the source throws
on `!response.ok`, so both surface the same way). -/
inductive SttOutcome where
  | ok (transcript : String)
  | fail (reason : String)
deriving DecidableEq, Repr

/-- Network environment of one `sendAudioToBackend` call: what the server
answers on the compressed and on the uncompressed attempt. -/
structure SttEnv where
  compressedOutcome : SttOutcome
  uncompressedOutcome : SttOutcome
deriving DecidableEq, Repr

/-- One request as the server sees it: whether the form data carried the
`compress = 'true'` field. -/
structure SttRequest where
  compress : Bool
deriving DecidableEq, Repr

/-- The compression threshold: `audioBlob.size > 100000`. -/
def compressionThreshold : Nat := 100000

/-- `RecordingManager.sendAudioToBackend(audioBlob)`: when the blob
exceeds the threshold, try once with the `compress` flag and fall back
to the plain path on any failure; otherwise (or as that fallback) make
one plain attempt whose failure is rethrown to the caller.  Returns the
settled result together with the list of requests issued. -/
def sendAudioToBackend (size : Nat) (env : SttEnv) :
    Except String String × List SttRequest :=
  if size > compressionThreshold then
    match env.compressedOutcome with
    | SttOutcome.ok t => (Except.ok t, [{ compress := true }])
    | SttOutcome.fail _ =>
        match env.uncompressedOutcome with
        | SttOutcome.ok t =>
            (Except.ok t, [{ compress := true }, { compress := false }])
        | SttOutcome.fail r =>
            (Except.error r, [{ compress := true }, { compress := false }])
  else
    match env.uncompressedOutcome with
    | SttOutcome.ok t => (Except.ok t, [{ compress := false }])
    | SttOutcome.fail r => (Except.error r, [{ compress := false }])

/-! ### Concrete sample states and auxiliary values used by the
theorems below -/

/-- A concrete playback state in which message 0 is playing. -/
def playbackSample : PlaybackState :=
  { currentlyPlaying := some 0
    stateOf := fun m => if m = 0 then PlayState.PLAYING else PlayState.IDLE
    currentPosition := fun _ => 0
    globalPlaybackRate := 1
    storedPlaybackRate := none
    speedLabel := fun _ => 1
    unlockedAudio := some 1
    audioTime := 7/2 }

/-- A concrete playback state whose global rate 0.75 is outside
{1, 1.5, 2}; such a rate is reachable because `initialize` loads
`parseFloat(localStorage.getItem('audioPlaybackRate'))` without
sanitizing it. -/
def playbackSampleOffDomain : PlaybackState :=
  { currentlyPlaying := none
    stateOf := fun _ => PlayState.IDLE
    currentPosition := fun _ => 0
    globalPlaybackRate := 3/4
    storedPlaybackRate := some (3/4)
    speedLabel := fun _ => 3/4
    unlockedAudio := none
    audioTime := 0 }

/-- An audio content-type header value. -/
def audioMpeg : String := "audio/mpeg"

/-- A concrete 200-status synthesis response with an audio content-type
and an empty body. -/
def emptyAudioResponse : TTSResponse :=
  { ok := true, status := 200, contentType := some audioMpeg, bodySize := 0 }

/-- A vocal button in its pre-click default state. -/
def vocalButtonSample : VocalButton :=
  { loading := false, icon := vocalIcon }

/-- The promise settled (was not rejected and no exception escaped). -/
def isResolved : Except String Bool → Bool
  | Except.ok _ => true
  | Except.error _ => false

/-- A message carried by a simulated internal unlock failure. -/
def unlockFailureMsg : String := "AudioContext construction failed"

/-- An environment in which the unlock techniques throw internally. -/
def failingUnlockEnv : UnlockEnv := { bodyFailure := some unlockFailureMsg }

/-- A fresh unlock state: not yet unlocked, no attempts made. -/
def freshUnlockState : UnlockState :=
  { audioUnlocked := false, audioUnlockAttempts := 0 }

/-- A recording session in progress on a desktop browser with native
speech recognition. -/
def recordingActiveSample : RecState :=
  { isRecording := true
    micStream := some true
    micAcquisitions := 1
    speechRecognitionSupported := true
    isAndroid := false
    recognitionRunning := true
    userInputValue := ""
    userInputReadOnly := true
    currentTranscript := ""
    autoTranscribe := false
    errorSurfaced := false
    chatDispatches := 0 }

/-- The draft the user had typed before pressing the voice button. -/
def priorDraft : String := "hello"

/-- An idle recording manager on desktop with a non-empty draft in the
text input. -/
def recordingIdleWithDraft : RecState :=
  { isRecording := false
    micStream := none
    micAcquisitions := 0
    speechRecognitionSupported := true
    isAndroid := false
    recognitionRunning := false
    userInputValue := priorDraft
    userInputReadOnly := false
    currentTranscript := ""
    autoTranscribe := false
    errorSurfaced := false
    chatDispatches := 0 }

/-- The transient recognizer events of C7: an `aborted` error and a
spontaneous engine end. -/
inductive TransientEvent where
  | abortedError
  | engineEnded
deriving DecidableEq, Repr

/-- Dispatch one transient recognizer event to its handler. -/
def applyTransientEvent : TransientEvent → RecState → RecState
  | TransientEvent.abortedError, s => recognitionOnError RecErrorKind.aborted s
  | TransientEvent.engineEnded, s => recognitionOnEnd s

/-- What the failing compressed attempt reports. -/
def compressedFailReason : String := "Server responded with 500: boom"

/-- What the failing uncompressed fallback reports. -/
def uncompressedFailReason : String := "TypeError: failed to fetch"

/-- A network environment in which both transcription attempts fail. -/
def sttBothFailEnv : SttEnv :=
  { compressedOutcome := SttOutcome.fail compressedFailReason
    uncompressedOutcome := SttOutcome.fail uncompressedFailReason }

/-- A blob size above the compression threshold. -/
def largeBlobSize : Nat := 150000

/-! ## Theorems -/

theorem setAt_same {α : Type} (f : MsgId → α) (k : MsgId) (v : α) :
    setAt f k v k = v := by
  simp [setAt]

theorem setAt_other {α : Type} (f : MsgId → α) (k m : MsgId) (v : α)
    (h : m ≠ k) : setAt f k v m = f m := by
  simp [setAt, h]

/-- C1, counterexample: with message 0 `PLAYING`, starting playback for
message 1 leaves message 0 in the `PAUSED` state — not `FINISHED` as
the claim states (`playMessageAudio` stops the previous entry with
`stopCurrentlyPlayingAudio(false)`, whose `false` branch demotes to
`PAUSED`). -/
theorem playMessageAudio_demotes_to_paused_cex :
    (playMessageAudio 1 playbackSample).stateOf 0 = PlayState.PAUSED ∧
    ¬ (playMessageAudio 1 playbackSample).stateOf 0 = PlayState.FINISHED := by
  constructor <;> decide

/-- C1 (amended): starting playback for entry B while a distinct entry A
is `Playing` leaves A `Paused` (with its offset recorded) and B
`Playing`, and at no intermediate point of `playMessageAudio` are two
entries simultaneously `Playing`. -/
theorem playMessageAudio_exclusive (s : PlaybackState) (A B : MsgId)
    (hAB : A ≠ B) (hcur : s.currentlyPlaying = some A)
    (hA : s.stateOf A = PlayState.PLAYING)
    (honly : ∀ m, s.stateOf m = PlayState.PLAYING → m = A) :
    (playMessageAudio B s).stateOf A = PlayState.PAUSED ∧
    (playMessageAudio B s).stateOf B = PlayState.PLAYING ∧
    ∀ t ∈ playMessageAudioTrace B s, AtMostOnePlaying t := by
  have hne : A ≠ B := hAB
  have hstop : (playStepStopPrevious B s).stateOf =
      setAt (setAt s.stateOf A PlayState.FINISHED) A PlayState.PAUSED := by
    simp [playStepStopPrevious, hcur, hne, stopCurrentlyPlayingAudio,
      releaseAudioResources]
  have hfin : (playMessageAudio B s).stateOf =
      setAt (setAt (setAt s.stateOf A PlayState.FINISHED) A PlayState.PAUSED)
        B PlayState.PLAYING := by
    simp [playMessageAudio, playStepSetCurrent, playStepMarkPlaying, hstop]
  refine ⟨?_, ?_, ?_⟩
  · rw [hfin]
    simp [setAt, hne, (Ne.symm hne)]
  · rw [hfin]
    simp [setAt]
  · intro t ht
    have honly1 : ∀ m,
        (setAt (setAt s.stateOf A PlayState.FINISHED) A PlayState.PAUSED) m =
          PlayState.PLAYING → False := by
      intro m hm
      by_cases hmA : m = A
      · subst hmA
        simp [setAt] at hm
      · rw [setAt_other _ _ _ _ hmA, setAt_other _ _ _ _ hmA] at hm
        exact hmA (honly m hm)
    simp only [playMessageAudioTrace, List.mem_cons, List.mem_singleton,
      List.not_mem_nil, or_false] at ht
    rcases ht with rfl | rfl | rfl | rfl
    · intro m n hm hn
      rw [honly m hm, honly n hn]
    · intro m n hm hn
      rw [hstop] at hm
      exact absurd hm (by intro h; exact honly1 m h)
    · intro m n hm hn
      have : (playStepSetCurrent B (playStepStopPrevious B s)).stateOf =
          (playStepStopPrevious B s).stateOf := rfl
      rw [this, hstop] at hm
      exact absurd hm (by intro h; exact honly1 m h)
    · intro m n hm hn
      have h3 : (playStepMarkPlaying B
          (playStepSetCurrent B (playStepStopPrevious B s))).stateOf =
          setAt (playStepStopPrevious B s).stateOf B PlayState.PLAYING := rfl
      rw [h3] at hm hn
      by_cases hmB : m = B
      · by_cases hnB : n = B
        · rw [hmB, hnB]
        · rw [setAt_other _ _ _ _ hnB, hstop] at hn
          exact absurd hn (by intro h; exact honly1 n h)
      · rw [setAt_other _ _ _ _ hmB, hstop] at hm
        exact absurd hm (by intro h; exact honly1 m h)

/-- C1 witness: the amended theorem applied at the concrete state
`playbackSample` with A = 0, B = 1. -/
theorem playMessageAudio_exclusive_witness :
    ((0 : MsgId) ≠ 1 ∧ playbackSample.currentlyPlaying = some 0 ∧
      playbackSample.stateOf 0 = PlayState.PLAYING ∧
      (∀ m, playbackSample.stateOf m = PlayState.PLAYING → m = 0)) ∧
    ((playMessageAudio 1 playbackSample).stateOf 0 = PlayState.PAUSED ∧
      (playMessageAudio 1 playbackSample).stateOf 1 = PlayState.PLAYING ∧
      ∀ t ∈ playMessageAudioTrace 1 playbackSample, AtMostOnePlaying t) := by
  have honly : ∀ m, playbackSample.stateOf m = PlayState.PLAYING → m = 0 := by
    intro m hm
    by_cases h : m = 0
    · exact h
    · simp [playbackSample, h] at hm
  exact ⟨⟨by decide, by decide, by decide, honly⟩,
    playMessageAudio_exclusive playbackSample 0 1 (by decide) (by decide)
      (by decide) honly⟩

/-- C4: after `replayAudio(entry)`, the entry's stored position is 0 and
the global playback rate is exactly what it was before the call. -/
theorem replayAudio_resets_position_preserves_rate (msg : MsgId)
    (s : PlaybackState) :
    (replayAudio msg s).currentPosition msg = 0 ∧
    (replayAudio msg s).globalPlaybackRate = s.globalPlaybackRate := by
  unfold replayAudio playMessageAudio playStepMarkPlaying playStepSetCurrent
    playStepStopPrevious stopCurrentlyPlayingAudio releaseAudioResources
    getCurrentPlaybackTime
  cases hc : s.currentlyPlaying with
  | none => simp [hc, setAt_same]
  | some a =>
      by_cases ha : a = msg
      · subst ha
        simp [hc, setAt_same]
      · have hms : msg ≠ a := fun h => ha h.symm
        simp [hc, ha, setAt, hms]

/-- C5, counterexample: from the starting rate 0.75 three applications of
`cyclePlaybackSpeed` yield 2, not 0.75 — the cycle is a 3-cycle only on
{1, 1.5, 2}; every other rate is sent into the cycle at 1. -/
theorem cyclePlaybackSpeed_not_cycle_off_domain_cex :
    ¬ (cyclePlaybackSpeed (cyclePlaybackSpeed
        (cyclePlaybackSpeed playbackSampleOffDomain))).globalPlaybackRate
      = playbackSampleOffDomain.globalPlaybackRate := by
  norm_num [cyclePlaybackSpeed, cycleRateValue, playbackSampleOffDomain]

/-- C5 (amended): for a starting rate in {1, 1.5, 2} three applications
of `cyclePlaybackSpeed` restore the starting rate, and after any single
application every message's displayed speed-button label equals the new
global rate. -/
theorem cyclePlaybackSpeed_three_cycle (s : PlaybackState)
    (h : s.globalPlaybackRate = 1 ∨ s.globalPlaybackRate = 3/2 ∨
      s.globalPlaybackRate = 2) :
    (cyclePlaybackSpeed (cyclePlaybackSpeed
        (cyclePlaybackSpeed s))).globalPlaybackRate = s.globalPlaybackRate ∧
    ∀ m, (cyclePlaybackSpeed s).speedLabel m =
      (cyclePlaybackSpeed s).globalPlaybackRate := by
  refine ⟨?_, fun m => rfl⟩
  rcases h with h | h | h <;> norm_num [cyclePlaybackSpeed, cycleRateValue, h]

/-- C5 witness: the amended theorem applied at the concrete state
`playbackSample`, whose rate is 1. -/
theorem cyclePlaybackSpeed_three_cycle_witness :
    (playbackSample.globalPlaybackRate = 1 ∨
      playbackSample.globalPlaybackRate = 3/2 ∨
      playbackSample.globalPlaybackRate = 2) ∧
    ((cyclePlaybackSpeed (cyclePlaybackSpeed
        (cyclePlaybackSpeed playbackSample))).globalPlaybackRate =
      playbackSample.globalPlaybackRate ∧
    ∀ m, (cyclePlaybackSpeed playbackSample).speedLabel m =
      (cyclePlaybackSpeed playbackSample).globalPlaybackRate) :=
  ⟨Or.inl rfl, cyclePlaybackSpeed_three_cycle playbackSample (Or.inl rfl)⟩

/-- C10: one `cyclePlaybackSpeed` call from any prior rate (including
an arbitrary value loaded from `localStorage` at initialization) lands
the global rate in {1, 1.5, 2} and persists exactly that value to the
`audioPlaybackRate` settings key. -/
theorem cyclePlaybackSpeed_reestablishes_domain (s : PlaybackState) :
    ((cyclePlaybackSpeed s).globalPlaybackRate = 1 ∨
      (cyclePlaybackSpeed s).globalPlaybackRate = 3/2 ∨
      (cyclePlaybackSpeed s).globalPlaybackRate = 2) ∧
    (cyclePlaybackSpeed s).storedPlaybackRate =
      some (cyclePlaybackSpeed s).globalPlaybackRate := by
  unfold cyclePlaybackSpeed cycleRateValue
  constructor
  · split_ifs <;> simp
  · rfl

/-- C6: a successful synthesis response with an audio content-type but a
0-byte body makes `speakMessage` reject with the empty-audio error, and
the catch block leaves the vocal button out of the loading state with
its default icon restored. -/
theorem speakMessage_empty_audio_rejects (r : TTSResponse) (btn : VocalButton)
    (hok : r.ok = true) (hct : contentTypeIsAudio r.contentType = true)
    (hsz : r.bodySize = 0) :
    (speakMessage r btn).1 = Except.error TTSError.emptyAudioBlob ∧
    (speakMessage r btn).2.loading = false ∧
    (speakMessage r btn).2.icon = vocalIcon := by
  unfold speakMessage requestTTS
  simp [hok, hct, hsz]

/-- C6 witness: the theorem applied to a concrete empty 200 audio
response. -/
theorem speakMessage_empty_audio_rejects_witness :
    (emptyAudioResponse.ok = true ∧
      contentTypeIsAudio emptyAudioResponse.contentType = true ∧
      emptyAudioResponse.bodySize = 0) ∧
    ((speakMessage emptyAudioResponse vocalButtonSample).1 =
        Except.error TTSError.emptyAudioBlob ∧
      (speakMessage emptyAudioResponse vocalButtonSample).2.loading = false ∧
      (speakMessage emptyAudioResponse vocalButtonSample).2.icon = vocalIcon) :=
  ⟨⟨rfl, by decide, rfl⟩,
    speakMessage_empty_audio_rejects emptyAudioResponse vocalButtonSample rfl
      (by decide) rfl⟩

/-- C9: `unlockAudio` always settles by resolution — never by rejection;
when already unlocked and not forced it resolves `true` at once without
re-running the techniques or touching the state; and whenever the
techniques do run and an internal failure escapes to the outer catch,
the call resolves `false`. -/
theorem unlockAudio_total (force : Bool) (env : UnlockEnv) (s : UnlockState) :
    isResolved (unlockAudio force env s).promise = true ∧
    (s.audioUnlocked = true → force = false →
      unlockAudio force env s =
        { promise := Except.ok true, state := s, techniquesRan := false }) ∧
    (env.bodyFailure ≠ none →
      (unlockAudio force env s).techniquesRan = true →
      (unlockAudio force env s).promise = Except.ok false) := by
  unfold unlockAudio
  refine ⟨?_, ?_, ?_⟩
  · split_ifs <;> cases henv : env.bodyFailure <;> simp [isResolved]
  · intro hu hf
    simp [hu, hf]
  · intro hfail
    cases henv : env.bodyFailure with
    | none => exact absurd henv hfail
    | some e => split_ifs <;> simp [henv]

/-- C9 witness: the theorem applied at a fresh state with a failing
environment, plus a separate direct application at an already-unlocked
state exercising the no-op branch. -/
theorem unlockAudio_total_witness :
    (isResolved (unlockAudio false failingUnlockEnv freshUnlockState).promise
        = true ∧
      (freshUnlockState.audioUnlocked = true → false = false →
        unlockAudio false failingUnlockEnv freshUnlockState =
          { promise := Except.ok true, state := freshUnlockState,
            techniquesRan := false }) ∧
      (failingUnlockEnv.bodyFailure ≠ none →
        (unlockAudio false failingUnlockEnv freshUnlockState).techniquesRan
          = true →
        (unlockAudio false failingUnlockEnv freshUnlockState).promise =
          Except.ok false)) :=
  unlockAudio_total false failingUnlockEnv freshUnlockState

/-- C2: while a session is active, any number of further voice-button
clicks leaves the state untouched — no error is surfaced, the
microphone is not acquired again, and exactly one session is active
afterward. -/
theorem voiceButtonClick_ignored_while_recording (s : RecState) (n : Nat)
    (h : s.isRecording = true) :
    voiceButtonClick^[n] s = s ∧
    (voiceButtonClick^[n] s).micAcquisitions = s.micAcquisitions ∧
    (voiceButtonClick^[n] s).errorSurfaced = s.errorSurfaced ∧
    activeSessions (voiceButtonClick^[n] s) = 1 := by
  have hfix : voiceButtonClick s = s := by
    unfold voiceButtonClick
    simp [h]
  have hit : voiceButtonClick^[n] s = s := Function.iterate_fixed hfix n
  exact ⟨hit, by rw [hit], by rw [hit],
    by rw [hit]; simp [activeSessions, h]⟩

/-- C2 witness: three duplicate clicks on a concrete active session. -/
theorem voiceButtonClick_ignored_while_recording_witness :
    recordingActiveSample.isRecording = true ∧
    (voiceButtonClick^[3] recordingActiveSample = recordingActiveSample ∧
      (voiceButtonClick^[3] recordingActiveSample).micAcquisitions =
        recordingActiveSample.micAcquisitions ∧
      (voiceButtonClick^[3] recordingActiveSample).errorSurfaced =
        recordingActiveSample.errorSurfaced ∧
      activeSessions (voiceButtonClick^[3] recordingActiveSample) = 1) :=
  ⟨rfl, voiceButtonClick_ignored_while_recording recordingActiveSample 3 rfl⟩

/-- C3, counterexample: with the draft `"hello"` in the field before the
voice button is pressed, cancelling leaves the field empty — not equal
to the prior content, because both the cancel handler and
`stopRecording(false)` set `userInput.value = ''`. -/
theorem cancel_discards_prior_draft_cex :
    ¬ (cancelButtonClick
        (voiceButtonClick recordingIdleWithDraft)).userInputValue =
      recordingIdleWithDraft.userInputValue := by
  decide

/-- C3 (amended): cancelling a recording always leaves the text input
empty — no residual transcript remains, but any content present before
`startRecording` is cleared as well (so the field matches its prior
content only when that content was empty). -/
theorem cancelButtonClick_clears_input (s : RecState) :
    (cancelButtonClick s).userInputValue = "" := by
  unfold cancelButtonClick stopRecording
  dsimp only
  split_ifs <;> first | rfl | simp_all

theorem applyTransientEvent_preserves_recording (e : TransientEvent)
    (s : RecState) (h : s.isRecording = true) :
    (applyTransientEvent e s).isRecording = true := by
  cases e with
  | abortedError =>
      unfold applyTransientEvent recognitionOnError
      simp [h]
  | engineEnded =>
      unfold applyTransientEvent recognitionOnEnd
      simp [h]

/-- C7: while a session is active, an `aborted` recognizer error is a
complete no-op (nothing stops, nothing is surfaced), a spontaneous
recognizer end leads to a restart with the session still active, and no
sequence of such transient events ever terminates the session. -/
theorem recognizer_transient_self_healing (s : RecState)
    (h : s.isRecording = true) :
    recognitionOnError RecErrorKind.aborted s = s ∧
    (recognitionOnEnd s).isRecording = true ∧
    (recognitionOnEnd s).recognitionRunning = true ∧
    (recognitionOnEnd s).errorSurfaced = s.errorSurfaced ∧
    ∀ evs : List TransientEvent,
      (evs.foldl (fun st e => applyTransientEvent e st) s).isRecording
        = true := by
  refine ⟨?_, ?_, ?_, ?_, ?_⟩
  · unfold recognitionOnError
    simp [h]
  · unfold recognitionOnEnd
    simp [h]
  · unfold recognitionOnEnd
    simp [h]
  · unfold recognitionOnEnd
    simp [h]
  · intro evs
    induction evs generalizing s with
    | nil => exact h
    | cons e rest ih =>
        exact ih _ (applyTransientEvent_preserves_recording e s h)

/-- C7 witness: an aborted error followed by an engine end on a concrete
active session. -/
theorem recognizer_transient_self_healing_witness :
    recordingActiveSample.isRecording = true ∧
    (recognitionOnError RecErrorKind.aborted recordingActiveSample =
        recordingActiveSample ∧
      (recognitionOnEnd recordingActiveSample).isRecording = true ∧
      (recognitionOnEnd recordingActiveSample).recognitionRunning = true ∧
      (recognitionOnEnd recordingActiveSample).errorSurfaced =
        recordingActiveSample.errorSurfaced ∧
      ∀ evs : List TransientEvent,
        (evs.foldl (fun st e => applyTransientEvent e st)
          recordingActiveSample).isRecording = true) :=
  ⟨rfl, recognizer_transient_self_healing recordingActiveSample rfl⟩

/-- C8: the first transcription request signals compression exactly when
the blob exceeds the 100000-byte threshold; a failed compressed attempt
is followed by exactly one uncompressed fallback; a failed fallback
surfaces as an error to the caller; and never more than two requests
are issued. -/
theorem sendAudioToBackend_policy (size : Nat) (env : SttEnv) :
    (List.countP (fun r => r.compress) (sendAudioToBackend size env).2 =
      if size > compressionThreshold then 1 else 0) ∧
    (sendAudioToBackend size env).2.length ≤ 2 ∧
    (∀ r1, env.compressedOutcome = SttOutcome.fail r1 →
      size > compressionThreshold →
      (sendAudioToBackend size env).2 =
        [{ compress := true }, { compress := false }] ∧
      ∀ r2, env.uncompressedOutcome = SttOutcome.fail r2 →
        (sendAudioToBackend size env).1 = Except.error r2) := by
  unfold sendAudioToBackend
  rcases env with ⟨co, uo⟩
  by_cases hsz : size > compressionThreshold <;>
    cases co <;> cases uo <;>
      simp [hsz, List.countP_cons, List.countP_nil]

/-- C8 witness: the theorem applied to a 150000-byte blob in an
environment where both attempts fail. -/
theorem sendAudioToBackend_policy_witness :
    (List.countP (fun r => r.compress)
        (sendAudioToBackend largeBlobSize sttBothFailEnv).2 =
      if largeBlobSize > compressionThreshold then 1 else 0) ∧
    (sendAudioToBackend largeBlobSize sttBothFailEnv).2.length ≤ 2 ∧
    (∀ r1, sttBothFailEnv.compressedOutcome = SttOutcome.fail r1 →
      largeBlobSize > compressionThreshold →
      (sendAudioToBackend largeBlobSize sttBothFailEnv).2 =
        [{ compress := true }, { compress := false }] ∧
      ∀ r2, sttBothFailEnv.uncompressedOutcome = SttOutcome.fail r2 →
        (sendAudioToBackend largeBlobSize sttBothFailEnv).1 =
          Except.error r2) :=
  sendAudioToBackend_policy largeBlobSize sttBothFailEnv

end MeitAi
